import Mathlib

/-!
Verification of the kurb-ble-simulator control core against its
natural-language specification.  The Python sources embedded here are
`battery_engine.py`, `state_machine.py`, `schedule_engine.py` and
`ble_wrapper_stub.py`.  Pure Python functions become Lean functions;
Python exceptions become `Except PyError`; byte strings become `List Nat`.
-/

namespace Kurb

/-- Python exceptions that the embedded code can raise. -/
inductive PyError where
  | keyError (k : String)
  | typeError
  | indexError
  | valueError
deriving DecidableEq, Repr

/-! ## battery_engine.py

```python
def classify_battery(percent):
    if percent <= 3:
        return "emergency"
    elif percent <= 10:
        return "critical"
    elif percent <= 20:
        return "low"
    else:
        return "normal"
```
Python integers are unbounded, so `percent : Int`. -/

def classify_battery (percent : Int) : String :=
  if percent ≤ 3 then "emergency"
  else if percent ≤ 10 then "critical"
  else if percent ≤ 20 then "low"
  else "normal"

/-! ## state_machine.py

```python
def is_locked(state):
    return state == 1

def is_unlocked(state):
    return state == 0
```
Lock state travels on the wire as one byte held in a Python int. -/

def is_locked (state : Int) : Bool :=
  state == 1

def is_unlocked (state : Int) : Bool :=
  state == 0

/-! ## A model of Python JSON values

`schedule_engine.py` subscripts a decoded JSON value, and
`ble_wrapper_stub.py` serializes one with `json.dumps`.  We model JSON
values directly; Python dicts keep insertion order and unique keys, so an
association list with first-match lookup is a faithful model. -/

inductive Json where
  | null
  | bool (b : Bool)
  | int (n : Int)
  | str (s : String)
  | arr (xs : List Json)
  | obj (kvs : List (String × Json))

/-- Python subscription `j[k]` with a string key: on a dict it returns the
stored value or raises `KeyError`; on any non-dict value it raises
`TypeError` (ints, lists, strings are not subscriptable by a string). -/
def Json.getItem : Json → String → Except PyError Json
  | .obj kvs, k =>
    match kvs.lookup k with
    | some v => .ok v
    | none => .error (.keyError k)
  | _, _ => .error .typeError

/-- Python truthiness of a JSON value (`if self.sim.schedule:`). -/
def pyTruthy : Json → Bool
  | .null => false
  | .bool b => b
  | .int n => n != 0
  | .str s => s.length != 0
  | .arr xs => xs.length != 0
  | .obj kvs => kvs.length != 0

/-- Escaping of one character as done by `json.dumps` for the characters
that occur in this program's schedules (ASCII payloads decoded from the
wire). -/
def jsonEscapeChar (c : Char) : List Char :=
  if c = '"' then ['\\', '"']
  else if c = '\\' then ['\\', '\\']
  else if c = '\n' then ['\\', 'n']
  else if c = '\t' then ['\\', 't']
  else if c = '\r' then ['\\', 'r']
  else [c]

def jsonEscape (cs : List Char) : List Char :=
  cs.flatMap jsonEscapeChar

mutual

/-- `json.dumps` with its default separators `", "` and `": "`,
as a character list. -/
def Json.dumps : Json → List Char
  | .null => "null".data
  | .bool true => "true".data
  | .bool false => "false".data
  | .int n => (toString n).data
  | .str s => '"' :: (jsonEscape s.data ++ ['"'])
  | .arr xs => '[' :: (dumpsArr xs ++ [']'])
  | .obj kvs => '\x7b' :: (dumpsObj kvs ++ ['\x7d'])

def dumpsArr : List Json → List Char
  | [] => []
  | [x] => x.dumps
  | x :: y :: rest => x.dumps ++ [',', ' '] ++ dumpsArr (y :: rest)

def dumpsObj : List (String × Json) → List Char
  | [] => []
  | [(k, v)] => '"' :: (jsonEscape k.data ++ ['"', ':', ' '] ++ v.dumps)
  | (k, v) :: p :: rest =>
      '"' :: (jsonEscape k.data ++ ['"', ':', ' '] ++ v.dumps)
        ++ [',', ' '] ++ dumpsObj (p :: rest)

end

/-- `json.dumps(x).encode()`: the serialized bytes.  The schedules this
program handles are ASCII, where UTF-8 bytes coincide with codepoints. -/
def Json.dumpsBytes (j : Json) : List Nat :=
  j.dumps.map Char.toNat

/-! ## schedule_engine.py

```python
def parse_daily_limit(schedule_json):
    return schedule_json["daily_limit"]["max_unlocks"]

def parse_time_windows(schedule_json):
    return schedule_json["windows"]
```
-/

def parse_daily_limit (schedule_json : Json) : Except PyError Json :=
  schedule_json.getItem "daily_limit" >>= fun d => d.getItem "max_unlocks"

def parse_time_windows (schedule_json : Json) : Except PyError Json :=
  schedule_json.getItem "windows"

/-! ## ble_wrapper_stub.py -/

/-- Modelled from the spec: the attribute identifiers imported from
`ble_constants.py`, which is not under src/.  The spec says only that they
are opaque 128-bit values, each mapping to exactly one role, so we model
them as distinct opaque strings. -/
def CHAR_LOCK_STATE : String := "0001"

/-- Modelled from the spec: lock-command attribute identifier (see
`CHAR_LOCK_STATE`). -/
def CHAR_LOCK_COMMAND : String := "0002"

/-- Modelled from the spec: schedule attribute identifier. -/
def CHAR_SCHEDULE : String := "0003"

/-- Modelled from the spec: time-sync attribute identifier. -/
def CHAR_TIMESYNC : String := "0004"

/-- Modelled from the spec: battery attribute identifier. -/
def CHAR_BATTERY : String := "0005"

/-- Modelled from the spec: next-unlock-estimate attribute identifier. -/
def CHAR_NEXT_UNLOCK : String := "0006"

/-- Modelled from the spec: event-log attribute identifier. -/
def CHAR_EVENT : String := "0007"

/-- Python `bytes([n])`: a one-byte payload, raising `ValueError` when the
integer is outside 0..255. -/
def pyBytes1 (n : Nat) : Except PyError (List Nat) :=
  if n ≤ 255 then .ok [n] else .error .valueError

/-- Python `data[i]` on a byte string: the byte, or `IndexError` when the
index is out of range. -/
def pyIndex (data : List Nat) (i : Nat) : Except PyError Nat :=
  match data.get? i with
  | some b => .ok b
  | none => .error .indexError

/-- Modelled from the spec: the observable fields of `KurbSimulator`
(`kurb_logic.py` is not under src/; `ble_wrapper_stub.py` reads its
`lock_state`, `battery` and `schedule` attributes).  LockState and
BatteryLevel are byte-sized integers; the Schedule is an optional JSON
value, absent until a schedule write stores one. -/
structure KurbSimState where
  lock_state : Nat
  battery : Nat
  schedule : Option Json

/-- `KurbBLEPeripheral.on_read`: the GATT read handler.  The Python body
only reads `self.sim` fields and never assigns, so the state is returned
unchanged next to the payload (or the exception `bytes([...])` raises). -/
def on_read (s : KurbSimState) (uuid : String) :
    KurbSimState × Except PyError (List Nat) :=
  (s,
   if uuid == CHAR_LOCK_STATE then pyBytes1 s.lock_state
   else if uuid == CHAR_BATTERY then pyBytes1 s.battery
   else if uuid == CHAR_NEXT_UNLOCK then .ok [0x00, 0x00, 0x00, 0x00]
   else if uuid == CHAR_SCHEDULE then
     match s.schedule with
     | some j =>
       if pyTruthy j then
         let raw := Json.dumpsBytes j
         pyBytes1 raw.length >>= fun lb => .ok (lb ++ raw)
       else .ok [0x00]
     | none => .ok [0x00]
   else .ok [0x00])

/-- `KurbBLEPeripheral.on_logic_event`: notifies `CHAR_EVENT` with the raw
event code, then, when the code is one of `0x01`, `0x02`, `0x09`, also
notifies `CHAR_LOCK_STATE` with the current lock state.
`send_notification` is the abstract transport capability (the stub leaves
it unimplemented), so an attempted notification is recorded as an
(attribute, payload) pair, in call order. -/
def on_logic_event (s : KurbSimState) (event_code : List Nat) :
    Except PyError (List (String × List Nat)) :=
  if event_code = [0x01] ∨ event_code = [0x02] ∨ event_code = [0x09] then
    pyBytes1 s.lock_state >>= fun b =>
      .ok [(CHAR_EVENT, event_code), (CHAR_LOCK_STATE, b)]
  else .ok [(CHAR_EVENT, event_code)]

/-- Modelled from the spec: the logic core (`kurb_logic.py`, not under
src/) delivers the Events it emits to `on_logic_event` one at a time, in
emission order. -/
def process_events (s : KurbSimState) : List (List Nat) →
    Except PyError (List (String × List Nat))
  | [] => .ok []
  | e :: rest =>
    on_logic_event s e >>= fun ns =>
      process_events s rest >>= fun more => .ok (ns ++ more)

/-- `KurbBLEPeripheral.on_write_lock_command`: reads `data[0]` (raising
`IndexError` on an empty payload), forwards the payload to
`self.sim.on_write` and then notifies the lock-state attribute.
`KurbSimulator.on_write` is code not under src/, so the handler is
parameterized by the simulator's write behavior `simWrite`; the results
are the updated simulator state and the attempted notifications. -/
def on_write_lock_command
    (simWrite : KurbSimState → String → List Nat → KurbSimState)
    (s : KurbSimState) (data : List Nat) :
    Except PyError (KurbSimState × List (String × List Nat)) :=
  pyIndex data 0 >>= fun _cmd =>
    let s' := simWrite s CHAR_LOCK_COMMAND data
    pyBytes1 s'.lock_state >>= fun note =>
      .ok (s', [(CHAR_LOCK_STATE, note)])

/-! ## Claims about the pure helper modules -/

/-- C2: counterexample.  The claim reads the helpers with the wire table's
convention (0 = Locked, 1 = Unlocked), under which `is_locked 0` would be
true; the code returns `state == 1` for `is_locked`, so `is_locked 0` is
false and `is_unlocked 1` is false. -/
theorem C2_counterexample :
    is_locked 0 = false ∧ is_unlocked 1 = false ∧
    is_locked 1 = true ∧ is_unlocked 0 = true := by
  decide

/-- C2 (amended): the helper predicates use the convention 1 = Locked,
0 = Unlocked: `is_locked state` holds exactly when `state = 1`, and
`is_unlocked state` holds exactly when `state = 0`. -/
theorem C2_lock_helpers (state : Int) :
    (is_locked state = true ↔ state = 1) ∧
    (is_unlocked state = true ↔ state = 0) := by
  unfold is_locked is_unlocked
  constructor <;> simp

/-- C3: on 0..100, `classify_battery` follows the inclusive ascending
boundary policy and assigns exactly one tier: emergency iff percent ≤ 3,
critical iff 3 < percent ≤ 10, low iff 10 < percent ≤ 20, and normal iff
20 < percent. -/
theorem C3_classify_boundaries (p : Int) (h0 : 0 ≤ p) (h1 : p ≤ 100) :
    (classify_battery p = "emergency" ↔ p ≤ 3) ∧
    (classify_battery p = "critical" ↔ 3 < p ∧ p ≤ 10) ∧
    (classify_battery p = "low" ↔ 10 < p ∧ p ≤ 20) ∧
    (classify_battery p = "normal" ↔ 20 < p) := by
  unfold classify_battery
  split_ifs with hA hB hC <;>
    refine ⟨?_, ?_, ?_, ?_⟩ <;> constructor <;> intro h <;>
    first
      | rfl
      | omega
      | (exfalso; revert h; decide)

/-- C3: witness instantiating the boundary theorem at percent = 5. -/
theorem C3_classify_boundaries_witness :
    classify_battery 5 = "critical" ↔ (3 : Int) < 5 ∧ (5 : Int) ≤ 10 :=
  (C3_classify_boundaries 5 (by decide) (by decide)).2.1

/-- C4: counterexample.  The claim lists classify(4) = Low, but the code
classifies 4 as critical (4 ≤ 10 and not 4 ≤ 3). -/
theorem C4_counterexample :
    classify_battery 4 = "critical" ∧ classify_battery 4 ≠ "low" := by
  decide

/-- C4 (amended): the boundary spot values of the classifier are
3 → emergency, 4 → critical, 10 → critical, 11 → low, 20 → low,
21 → normal, 0 → emergency. -/
theorem C4_boundary_spot_values :
    classify_battery 3 = "emergency" ∧ classify_battery 4 = "critical" ∧
    classify_battery 10 = "critical" ∧ classify_battery 11 = "low" ∧
    classify_battery 20 = "low" ∧ classify_battery 21 = "normal" ∧
    classify_battery 0 = "emergency" := by
  decide

/-- C9: `classify_battery` is total on all integers with no clamping:
every percent below 0 is emergency and every percent above 100 is
normal. -/
theorem C9_classify_total_outside_range (p : Int) :
    (p < 0 → classify_battery p = "emergency") ∧
    (100 < p → classify_battery p = "normal") := by
  unfold classify_battery
  constructor <;> intro h <;> split_ifs <;> first | rfl | omega

/-- C9: witness instantiating the out-of-range theorem at -7 and 200. -/
theorem C9_classify_total_outside_range_witness :
    classify_battery (-7) = "emergency" ∧ classify_battery 200 = "normal" :=
  ⟨(C9_classify_total_outside_range (-7)).1 (by decide),
   (C9_classify_total_outside_range 200).2 (by decide)⟩

/-- C10: the schedule parsers do no validation: a missing "daily_limit"
key (or a "daily_limit" dict missing "max_unlocks") makes
`parse_daily_limit` raise `KeyError`, a missing "windows" key makes
`parse_time_windows` raise `KeyError`, and when the keys are present each
parser returns exactly the stored value. -/
theorem C10_schedule_parsers (kvs inner : List (String × Json)) (v w : Json) :
    (kvs.lookup "daily_limit" = none →
      parse_daily_limit (.obj kvs) = .error (.keyError "daily_limit")) ∧
    (kvs.lookup "daily_limit" = some (.obj inner) →
      inner.lookup "max_unlocks" = none →
      parse_daily_limit (.obj kvs) = .error (.keyError "max_unlocks")) ∧
    (kvs.lookup "daily_limit" = some (.obj inner) →
      inner.lookup "max_unlocks" = some v →
      parse_daily_limit (.obj kvs) = .ok v) ∧
    (kvs.lookup "windows" = none →
      parse_time_windows (.obj kvs) = .error (.keyError "windows")) ∧
    (kvs.lookup "windows" = some w →
      parse_time_windows (.obj kvs) = .ok w) := by
  refine ⟨?_, ?_, ?_, ?_, ?_⟩
  · intro h1
    simp [parse_daily_limit, Json.getItem, h1, Bind.bind, Except.bind]
  · intro h1 h2
    simp [parse_daily_limit, Json.getItem, h1, h2, Bind.bind, Except.bind]
  · intro h1 h2
    simp [parse_daily_limit, Json.getItem, h1, h2, Bind.bind, Except.bind]
  · intro h1
    simp [parse_time_windows, Json.getItem, h1]
  · intro h1
    simp [parse_time_windows, Json.getItem, h1]

/-- C10: witness instantiating the parser theorem at concrete
schedules. -/
theorem C10_schedule_parsers_witness :
    parse_daily_limit
        (.obj [("daily_limit", .obj [("max_unlocks", .int 3)])]) =
      .ok (.int 3) ∧
    parse_daily_limit (.obj []) = .error (.keyError "daily_limit") ∧
    parse_daily_limit (.obj [("daily_limit", .obj [])]) =
      .error (.keyError "max_unlocks") ∧
    parse_time_windows (.obj []) = .error (.keyError "windows") ∧
    parse_time_windows (.obj [("windows", .arr [])]) = .ok (.arr []) := by
  refine ⟨?_, ?_, ?_, ?_, ?_⟩
  · exact (C10_schedule_parsers
      [("daily_limit", .obj [("max_unlocks", .int 3)])]
      [("max_unlocks", Json.int 3)] (.int 3) .null).2.2.1 rfl rfl
  · exact (C10_schedule_parsers [] [] .null .null).1 rfl
  · exact (C10_schedule_parsers [("daily_limit", .obj [])] [] .null
      .null).2.1 rfl rfl
  · exact (C10_schedule_parsers [] [] .null .null).2.2.2.1 rfl
  · exact (C10_schedule_parsers [("windows", .arr [])] [] .null
      (.arr [])).2.2.2.2 rfl

/-! ## Claims about the BLE wrapper -/

/-- C1: at the failing input — a zero-length write to the lock-command
attribute — the handler evaluates `data[0]` and propagates `IndexError`
to the caller, whatever the simulator's write behavior does; the claim
says a malformed write propagates no fault. -/
theorem C1_empty_write_raises
    (simWrite : KurbSimState → String → List Nat → KurbSimState)
    (s : KurbSimState) :
    on_write_lock_command simWrite s [] = .error .indexError := rfl

/-- C5: counterexample — for the lock/unlock event 0x01 the bridge
attempts two notifications (event log, then lock state), not exactly
one. -/
theorem C5_counterexample :
    on_logic_event ⟨0, 100, none⟩ [0x01] =
      .ok [(CHAR_EVENT, [0x01]), (CHAR_LOCK_STATE, [0x00])] ∧
    ([(CHAR_EVENT, ([0x01] : List Nat)),
      (CHAR_LOCK_STATE, [0x00])].length : Nat) ≠ 1 := by
  exact ⟨rfl, by decide⟩

/-- C5 (amended): for every Event the bridge attempts an event-log
notification carrying the raw event code and, when the code is 0x01, 0x02
or 0x09, additionally a lock-state notification; over a sequence of
Events the attempted notifications are the concatenation of these
per-event notifications in emission order. -/
theorem C5_notifications (s : KurbSimState) (h : s.lock_state ≤ 255)
    (es : List (List Nat)) :
    process_events s es =
      .ok (es.flatMap fun e =>
        (CHAR_EVENT, e) ::
          (if e = [0x01] ∨ e = [0x02] ∨ e = [0x09] then
            [(CHAR_LOCK_STATE, [s.lock_state])] else [])) := by
  induction es with
  | nil => rfl
  | cons e rest ih =>
    simp only [process_events, on_logic_event, pyBytes1, if_pos h, ih,
      List.flatMap_cons, Bind.bind, Except.bind]
    split_ifs <;> simp

/-- C5: witness running the notification theorem on a lock event followed
by a non-lock event. -/
theorem C5_notifications_witness :
    process_events ⟨1, 90, none⟩ [[0x01], [0x07]] =
      .ok [(CHAR_EVENT, [0x01]), (CHAR_LOCK_STATE, [0x01]),
           (CHAR_EVENT, [0x07])] := by
  have h := C5_notifications ⟨1, 90, none⟩ (by decide) [[0x01], [0x07]]
  simpa using h

/-- C6: counterexample — with no schedule set, the schedule read returns
the one-byte payload 0x00, which is not a zero-length payload. -/
theorem C6_counterexample :
    (on_read ⟨0, 100, none⟩ CHAR_SCHEDULE).2 = .ok [0x00] ∧
    ([0x00] : List Nat).length ≠ 0 := by
  exact ⟨rfl, by decide⟩

/-- C6 (amended): a schedule read returns the single sentinel byte 0x00
when no schedule is set (or the stored schedule is falsy); when a truthy
schedule is set it returns a 1-byte length prefix followed by the
serialized schedule bytes whenever that length fits in a byte, and raises
ValueError otherwise. -/
theorem C6_schedule_read (s : KurbSimState) :
    (s.schedule = none → (on_read s CHAR_SCHEDULE).2 = .ok [0x00]) ∧
    (∀ j, s.schedule = some j → pyTruthy j = false →
      (on_read s CHAR_SCHEDULE).2 = .ok [0x00]) ∧
    (∀ j, s.schedule = some j → pyTruthy j = true →
      (Json.dumpsBytes j).length ≤ 255 →
      (on_read s CHAR_SCHEDULE).2 =
        .ok ((Json.dumpsBytes j).length :: Json.dumpsBytes j)) ∧
    (∀ j, s.schedule = some j → pyTruthy j = true →
      255 < (Json.dumpsBytes j).length →
      (on_read s CHAR_SCHEDULE).2 = .error .valueError) := by
  have b1 : (CHAR_SCHEDULE == CHAR_LOCK_STATE) = false := by decide
  have b2 : (CHAR_SCHEDULE == CHAR_BATTERY) = false := by decide
  have b3 : (CHAR_SCHEDULE == CHAR_NEXT_UNLOCK) = false := by decide
  have b4 : (CHAR_SCHEDULE == CHAR_SCHEDULE) = true := by decide
  refine ⟨?_, ?_, ?_, ?_⟩
  · intro h
    simp [on_read, b1, b2, b3, b4, h]
  · intro j hj ht
    simp [on_read, b1, b2, b3, b4, hj, ht]
  · intro j hj ht hlen
    simp [on_read, b1, b2, b3, b4, hj, ht, pyBytes1, hlen,
      Bind.bind, Except.bind]
  · intro j hj ht hlen
    simp [on_read, b1, b2, b3, b4, hj, ht, pyBytes1,
      Nat.not_le.mpr hlen, Bind.bind, Except.bind]

/-- C6: witness evaluating the schedule read on a small concrete
schedule. -/
theorem C6_schedule_read_witness :
    (on_read ⟨0, 100,
        some (.obj [("daily_limit", .obj [("max_unlocks", .int 2)])])⟩
      CHAR_SCHEDULE).2 =
      .ok ((Json.dumpsBytes
          (.obj [("daily_limit", .obj [("max_unlocks", .int 2)])])).length ::
        Json.dumpsBytes
          (.obj [("daily_limit", .obj [("max_unlocks", .int 2)])])) :=
  (C6_schedule_read _).2.2.1
    (.obj [("daily_limit", .obj [("max_unlocks", .int 2)])])
    rfl rfl (by decide)

/-- C7: a read of an attribute identifier that is none of the recognized
attributes returns the fixed one-byte zero payload and never fails. -/
theorem C7_unknown_read (s : KurbSimState) (uuid : String)
    (h1 : uuid ≠ CHAR_LOCK_STATE) (h2 : uuid ≠ CHAR_BATTERY)
    (h3 : uuid ≠ CHAR_NEXT_UNLOCK) (h4 : uuid ≠ CHAR_SCHEDULE) :
    (on_read s uuid).2 = .ok [0x00] := by
  simp [on_read, h1, h2, h3, h4]

/-- C7: witness reading a concrete unrecognized identifier. -/
theorem C7_unknown_read_witness :
    (on_read ⟨0, 100, none⟩ "ffff").2 = .ok [0x00] :=
  C7_unknown_read ⟨0, 100, none⟩ "ffff"
    (by decide) (by decide) (by decide) (by decide)

/-- C8: reads are side-effect-free with respect to the core state: for
every attribute identifier the read handler returns the simulator state —
LockState, BatteryLevel and the stored Schedule — unchanged. -/
theorem C8_read_frame (s : KurbSimState) (uuid : String) :
    (on_read s uuid).1 = s := rfl

end Kurb
